import Mathlib

/-!
# Verification of the client-side workflow-tracking subsystem

Shallow embedding, in Lean 4, of the workflow-tracking core of the
`s2-content-creator` Next.js client:

* the step/phase projection of `ControlTower.tsx` (`getStepStatus`,
  `getCurrentStepKey`) over the build-time `WORKFLOW_STEPS_CONFIG` table
  (`lib/types.ts`);
* the SSE push-channel connector of `useWorkflowStream.ts` (`cleanup`,
  `connectToSSE`, `onopen`, `onmessage`, `onerror`, reconnect timer);
* the HTTP job client of `lib/api-client.ts` (`BlogAPIClient.makeRequest`,
  `createAPIError`, `handleRequestError`);
* the dual-transport tracker of `useWorkflowTracking.ts` (SWR polling,
  SSE fallback effect, completion / failure / error-sync effects,
  `fetchResult`, `retry`, `reset`, `startGeneration`).

Stateful hook code is embedded as explicit state records plus step
functions; the React effects of `useWorkflowTracking` are applied, in
their declaration order, after every event, which matches the
single-threaded serialized event model of the runtime.  Timestamps are
modelled as integers, progress values as integers, payload parsing as an
`Option`-returning function.
-/

namespace S2Content

/-! ## Data model: `lib/types.ts` -/

/-- `StepStatus` from `lib/types.ts`:
`'pending' | 'processing' | 'completed' | 'failed'`. -/
inductive StepStatus where
  | pending
  | processing
  | completed
  | failed
deriving DecidableEq, Repr

/-- Overall workflow lifecycle state, the `status` field of
`WorkflowStatus` in `lib/types.ts`:
`'pending' | 'processing' | 'completed' | 'failed'`. -/
inductive OverallStatus where
  | pending
  | processing
  | completed
  | failed
deriving DecidableEq, Repr

/-- Backend-supplied per-step data, as read by `ControlTower.tsx`
(`status.steps[stepKey].status / .progress / .log_message`). -/
structure StepOverride where
  status : StepStatus
  progress : Int
  log_message : Option String
deriving DecidableEq, Repr

/-- `WorkflowStatus` from `lib/types.ts`.  `updated_at` / `created_at`
are ISO timestamps in the source, modelled as integers; `progress` is a
number, modelled as an integer (the claims quantify over integer
progress).  `steps` is the optional per-step record read by
`ControlTower.tsx`, modelled as an optional association list. -/
structure WorkflowStatus where
  id : String
  status : OverallStatus
  progress : Int
  current_step : String
  error : Option String
  created_at : Int
  updated_at : Int
  steps : Option (List (String × StepOverride))
deriving DecidableEq, Repr

/-- `BlogPostResult` from `lib/types.ts`, reduced to its `content`
field — the tracking logic treats the result as an opaque payload. -/
structure BlogPostResult where
  content : String
deriving DecidableEq, Repr

/-! ## The build-time step table: `WORKFLOW_STEPS_CONFIG` in `lib/types.ts` -/

/-- One entry of `WORKFLOW_STEPS_CONFIG`: the fields the step-status
derivation reads (`name`, `progressRange`). -/
structure StepConfig where
  name : String
  progressRange : Int × Int
deriving DecidableEq, Repr

/-- `WORKFLOW_STEPS_CONFIG` from `lib/types.ts`, in declaration order,
with each entry's `progressRange`. -/
def WORKFLOW_STEPS_CONFIG : List StepConfig :=
  [ ⟨"keyword_research", (0, 10)⟩,
    ⟨"content_generation", (10, 25)⟩,
    ⟨"seo_optimization", (25, 40)⟩,
    ⟨"image_prompt_generation", (40, 60)⟩,
    ⟨"image_generation", (60, 75)⟩,
    ⟨"thumbnail_creation", (75, 85)⟩,
    ⟨"social_snippet_generation", (85, 100)⟩ ]

/-! ## Step projection: `ControlTower.tsx` -/

/-- The backend per-step override `ControlTower.tsx` consults first:
`status.steps && status.steps[stepKey]`. -/
def stepOverride (st : WorkflowStatus) (stepKey : String) : Option StepOverride :=
  st.steps.bind (fun l => l.lookup stepKey)

/-- `getStepStatus` from `ControlTower.tsx`:

```
if (!status) return 'pending';
if (status.steps && status.steps[stepKey]) return status.steps[stepKey].status;
const [startProgress, endProgress] = stepConfig.progressRange;
if (status.progress < startProgress) return 'pending';
if (status.progress >= endProgress) return 'completed';
if (status.status === 'failed') return 'failed';
return 'processing';
```
-/
def getStepStatus (status : Option WorkflowStatus) (cfg : StepConfig) : StepStatus :=
  match status with
  | none => .pending
  | some st =>
    match stepOverride st cfg.name with
    | some ov => ov.status
    | none =>
      if st.progress < cfg.progressRange.1 then .pending
      else if cfg.progressRange.2 ≤ st.progress then .completed
      else if st.status = .failed then .failed
      else .processing

/-- `getCurrentStepKey` from `ControlTower.tsx`:

```
if (!status || status.status !== 'processing') return null;
for (const [key, config] of Object.entries(WORKFLOW_STEPS_CONFIG)) {
  const [start, end] = config.progressRange;
  if (status.progress >= start && status.progress < end) return key;
}
return null;
```
-/
def getCurrentStepKey (status : Option WorkflowStatus) : Option String :=
  match status with
  | none => none
  | some st =>
    if st.status ≠ .processing then none
    else
      (WORKFLOW_STEPS_CONFIG.find? (fun cfg =>
        decide (cfg.progressRange.1 ≤ st.progress) &&
        decide (st.progress < cfg.progressRange.2))).map (·.name)

/-- A snapshot with overall status `processing`, progress `p`, and no
backend per-step override — the snapshot shape claims C2 quantifies
over. -/
def mkProcessing (p : Int) : WorkflowStatus :=
  ⟨"wf", .processing, p, "", none, 0, 0, none⟩

/-- Number of table steps that derive `processing` from the snapshot
`mkProcessing p`. -/
def processingCount (p : Int) : Nat :=
  (WORKFLOW_STEPS_CONFIG.filter
    (fun cfg => getStepStatus (some (mkProcessing p)) cfg = .processing)).length

/-- Validity of the build-time table as a Boolean check: ordered
contiguous ranges (each range's end is the next range's start), each
range non-empty, starting at 0 and ending at 100. -/
def tableContiguous : Bool :=
  let ranges := WORKFLOW_STEPS_CONFIG.map (·.progressRange)
  (ranges.all (fun r => r.1 < r.2)) &&
  ((ranges.zip ranges.tail).all (fun rr => rr.1.2 == rr.2.1)) &&
  (ranges.head?.map (·.1) == some 0) &&
  (ranges.getLast?.map (·.2) == some 100)

/-- The last table step (`social_snippet_generation`), used to state
"the last step derives `completed` at progress 100". -/
def lastStepConfig : StepConfig := ⟨"social_snippet_generation", (85, 100)⟩

/-! ## Job client: `BlogAPIClient` in `lib/api-client.ts` -/

/-- `APIErrorType` from `lib/types.ts`. -/
inductive APIErrorType where
  | NETWORK_ERROR
  | VALIDATION_ERROR
  | WORKFLOW_NOT_FOUND
  | WORKFLOW_FAILED
  | TIMEOUT_ERROR
  | SSE_CONNECTION_ERROR
  | UNKNOWN_ERROR
deriving DecidableEq, Repr

/-- `BlogAPIError` from `lib/api-client.ts` (type, message, retryable
flag; the `details` payload is dropped as it never influences control
flow). -/
structure BlogAPIError where
  type : APIErrorType
  message : String
  retryable : Bool
deriving DecidableEq, Repr

/-- `BlogAPIClient.createAPIError` from `lib/api-client.ts`: maps an
HTTP status of a non-ok response to a typed error.  400/422 are
validation errors (not retryable), 404 is not-found (not retryable),
500/503 are retryable; any other status is retryable iff `status >= 500`. -/
def createAPIError (status : Nat) : BlogAPIError :=
  match status with
  | 400 => ⟨.VALIDATION_ERROR, "Invalid request. Please check your input.", false⟩
  | 404 => ⟨.WORKFLOW_NOT_FOUND, "Workflow not found. It may have expired.", false⟩
  | 422 => ⟨.VALIDATION_ERROR, "Validation error. Please check your input.", false⟩
  | 500 => ⟨.UNKNOWN_ERROR, "Server error. Please try again.", true⟩
  | 503 => ⟨.UNKNOWN_ERROR, "Service temporarily unavailable. Please try again.", true⟩
  | s => ⟨.UNKNOWN_ERROR, "HTTP error", decide (500 ≤ s)⟩

/-- The ways one fetch attempt inside `makeRequest` can fail: a non-ok
HTTP response (thrown as `createAPIError(status)`), an `AbortError`
(request timeout), a `TypeError` mentioning `fetch` (network failure),
or any other thrown value. -/
inductive RequestFailure where
  | httpError (status : Nat)
  | abortError
  | fetchTypeError
  | otherError (msg : String)
deriving DecidableEq, Repr

/-- `BlogAPIClient.handleRequestError` from `lib/api-client.ts`: a
`BlogAPIError` (here: the one built from a non-ok HTTP response) passes
through unchanged; `AbortError` becomes a retryable timeout error; a
fetch `TypeError` becomes a retryable network error; anything else is a
retryable unknown error. -/
def handleRequestError : RequestFailure → BlogAPIError
  | .httpError status => createAPIError status
  | .abortError => ⟨.TIMEOUT_ERROR, "Request timeout. Please try again.", true⟩
  | .fetchTypeError =>
      ⟨.NETWORK_ERROR, "Network connection failed. Please check your internet connection.", true⟩
  | .otherError msg => ⟨.UNKNOWN_ERROR, msg, true⟩

/-- Observable outcome of a `makeRequest` run: the value returned or
error thrown, the number of fetch attempts actually issued, and the
backoff delays (ms) slept between consecutive attempts. -/
structure RequestLog (α : Type) where
  result : Except BlogAPIError α
  requestsMade : Nat
  backoffDelays : List Nat
deriving Repr

/-- The body of `BlogAPIClient.makeRequest`'s retry loop, from
`lib/api-client.ts`, starting at loop index `attempt`.  `f i` is the
outcome of the `i`-th fetch attempt.

```
for (let attempt = 0; attempt < this.maxRetries; attempt++) {
  try { ... return await response.json(); } catch (error) {
    if (attempt === this.maxRetries - 1) throw this.handleRequestError(error);
    const apiError = this.handleRequestError(error);
    if (!apiError.retryable) throw apiError;
    const delay = Math.pow(2, attempt) * 1000;
    await sleep(delay);
  }
}
throw new BlogAPIError(UNKNOWN_ERROR, 'Max retries exceeded', false);
```
-/
def makeRequestFrom (f : Nat → Except RequestFailure α) (maxRetries : Nat) :
    Nat → RequestLog α
  | attempt =>
    if _h : attempt < maxRetries then
      match f attempt with
      | .ok v => ⟨.ok v, 1, []⟩
      | .error failure =>
        if attempt = maxRetries - 1 then
          ⟨.error (handleRequestError failure), 1, []⟩
        else
          let apiError := handleRequestError failure
          if apiError.retryable = false then
            ⟨.error apiError, 1, []⟩
          else
            let rest := makeRequestFrom f maxRetries (attempt + 1)
            ⟨rest.result, rest.requestsMade + 1, 2 ^ attempt * 1000 :: rest.backoffDelays⟩
    else
      ⟨.error ⟨.UNKNOWN_ERROR, "Max retries exceeded", false⟩, 0, []⟩
termination_by attempt => maxRetries - attempt
decreasing_by omega

/-- `BlogAPIClient.makeRequest`: the retry loop started at attempt 0. -/
def makeRequest (f : Nat → Except RequestFailure α) (maxRetries : Nat) : RequestLog α :=
  makeRequestFrom f maxRetries 0

/-- Default `maxRetries` (`config.maxRetries`, env default `'3'`). -/
def defaultMaxRetries : Nat := 3

/-! ## Push-channel connector: `useWorkflowStream.ts` -/

/-- The hook's `connectionState`:
`'connecting' | 'connected' | 'disconnected'`. -/
inductive ConnState where
  | connecting
  | connected
  | disconnected
deriving DecidableEq, Repr

/-- State of `useWorkflowStream`: the `data` / `error` React state, the
`connectionState`, whether an `EventSource` object currently exists
(`eventSourceRef`), the `reconnectAttempts` ref, and the pending
reconnect timer (`reconnectTimeoutRef`) recorded with its delay in
milliseconds. -/
structure StreamState where
  data : Option WorkflowStatus
  error : Option String
  connectionState : ConnState
  esOpen : Bool
  reconnectAttempts : Nat
  reconnectTimer : Option Nat
deriving DecidableEq, Repr

/-- `maxReconnectAttempts = 5` in `useWorkflowStream.ts`. -/
def maxReconnectAttempts : Nat := 5

/-- `cleanup` from `useWorkflowStream.ts`: close the event source,
clear the reconnect timer, set `connectionState` to `disconnected`, and
reset `reconnectAttempts` to 0. -/
def cleanup (s : StreamState) : StreamState :=
  { s with esOpen := false, reconnectTimer := none,
           connectionState := .disconnected, reconnectAttempts := 0 }

/-- `connectToSSE` from `useWorkflowStream.ts` (with a non-null
workflow id): set `connecting`, clear the error, create the
`EventSource`. -/
def connectToSSE (s : StreamState) : StreamState :=
  { s with connectionState := .connecting, error := none, esOpen := true }

/-- The `onopen` handler: `connected`, error cleared,
`reconnectAttempts.current = 0`. -/
def onOpen (s : StreamState) : StreamState :=
  { s with connectionState := .connected, error := none, reconnectAttempts := 0 }

/-- An inbound SSE frame: either a payload that `JSON.parse` turns into
a `WorkflowStatus`, or a malformed payload on which `JSON.parse`
throws. -/
inductive SSEPayload where
  | ok (st : WorkflowStatus)
  | malformed
deriving DecidableEq, Repr

/-- The `JSON.parse` step of the `onmessage` handler. -/
def parseSSE : SSEPayload → Option WorkflowStatus
  | .ok st => some st
  | .malformed => none

/-- The `onmessage` handler of `useWorkflowStream.ts`:

```
try {
  const statusData = JSON.parse(event.data);
  setData(statusData);
  if (statusData.status === 'completed' || statusData.status === 'failed') {
    eventSource.close();
    setConnectionState('disconnected');
  }
} catch (err) { setError('Failed to parse status update'); }
```
-/
def onMessage (s : StreamState) (p : SSEPayload) : StreamState :=
  match parseSSE p with
  | some st =>
    let s1 := { s with data := some st }
    if st.status = .completed ∨ st.status = .failed then
      { s1 with esOpen := false, connectionState := .disconnected }
    else s1
  | none => { s with error := some "Failed to parse status update" }

/-- The `onerror` handler of `useWorkflowStream.ts`:

```
cleanup();
if (reconnectAttempts.current < maxReconnectAttempts) {
  const delay = Math.pow(2, reconnectAttempts.current) * 1000;
  setError(`Connection lost. Reconnecting in ...s...`);
  reconnectAttempts.current++;
  reconnectTimeoutRef.current = setTimeout(connectToSSE, delay);
} else {
  setError('Failed to connect to workflow stream after multiple attempts');
}
```

Note the source calls `cleanup()` first, which resets
`reconnectAttempts.current` to 0 before the bound check and the delay
computation. -/
def onError (s : StreamState) : StreamState :=
  let s1 := cleanup s
  if s1.reconnectAttempts < maxReconnectAttempts then
    { s1 with
      error := some "Connection lost. Reconnecting...",
      reconnectAttempts := s1.reconnectAttempts + 1,
      reconnectTimer := some (2 ^ s1.reconnectAttempts * 1000) }
  else
    { s1 with error := some "Failed to connect to workflow stream after multiple attempts" }

/-- Firing of the pending reconnect timer: `setTimeout(connectToSSE, delay)`. -/
def reconnectTimerFire (s : StreamState) : StreamState :=
  match s.reconnectTimer with
  | some _ => connectToSSE { s with reconnectTimer := none }
  | none => s

/-- Fresh stream-hook state (`data = null`, `error = null`,
`connectionState = 'disconnected'`, no event source, no timer). -/
def initialStreamState : StreamState :=
  ⟨none, none, .disconnected, false, 0, none⟩

/-- One connect / transport-error round with no successful open in
between: the scheduled reconnect fires (`connectToSSE`) and the new
connection errors again.  `k` consecutive transport errors after an
initial `connectToSSE` are `errorRound^[k] (connectToSSE s)` for
`k ≥ 1` rounds. -/
def errorRound (s : StreamState) : StreamState :=
  onError (reconnectTimerFire s)

/-- The stream-hook state after six consecutive transport errors (each
scheduled reconnect fired and the new connection errored again), starting
from a fresh `connectToSSE`. -/
def sixErrorsState : StreamState := errorRound^[6] (connectToSSE initialStreamState)

/-! ## Dual-transport tracker: `useWorkflowTracking.ts`

The hook's React state plus the state of the embedded stream hook.  The
hook's effects are applied after every event, in their declaration
order, matching the serialized single-threaded event model of the
runtime.  `fetchResultCalls` instruments how many times
`client.getBlogResult` is invoked. -/

/-- The configuration fields the tracker reads (`config.enableSSE`,
`config.pollingInterval` from `lib/config.ts`). -/
structure TrackerConfig where
  enableSSE : Bool
  pollingInterval : Nat
deriving DecidableEq, Repr

/-- `lib/config.ts` defaults: `pollingInterval` parses env default
`'2000'`. -/
def defaultPollingInterval : Nat := 2000

/-- State of `useWorkflowTracking`: `workflowId`, `result`, `error`,
`isLoading`, `useSSE` React state; the embedded `useWorkflowStream`
state; the SWR polling `data` and `error`; the count of
`client.getBlogResult` invocations; and whether a
`setTimeout(() => setUseSSE(true), 1000)` scheduled by `retry` is
pending. -/
structure TrackingState where
  workflowId : Option String
  result : Option BlogPostResult
  error : Option String
  isLoading : Bool
  useSSE : Bool
  stream : StreamState
  pollingData : Option WorkflowStatus
  pollingError : Option String
  fetchResultCalls : Nat
  pendingSSERestore : Bool
deriving DecidableEq, Repr

/-- `const currentData = useSSE ? sseData : pollingData;` -/
def currentData (s : TrackingState) : Option WorkflowStatus :=
  if s.useSSE then s.stream.data else s.pollingData

/-- `const currentError = useSSE ? sseError : pollingError;` -/
def currentError (s : TrackingState) : Option String :=
  if s.useSSE then s.stream.error else s.pollingError

/-- Whether the SWR poll loop is active, i.e. whether the SWR key
`!useSSE && workflowId ? url : null` is non-null.  While active, SWR
revalidates every `config.pollingInterval` milliseconds
(`refreshInterval`), so a status-fetch tick fires iff this holds. -/
def pollActive (s : TrackingState) : Bool :=
  !s.useSSE && s.workflowId.isSome

/-- The fallback effect (`useWorkflowTracking.ts`):

```
if (sseError && connectionState === 'disconnected' && useSSE) {
  setUseSSE(false);
  setError(null);
}
```

Setting `useSSE` to false hands the stream hook a null workflow id,
whose setup effect runs `cleanup`. -/
def fallbackEffect (s : TrackingState) : TrackingState :=
  if s.stream.error.isSome && s.stream.connectionState = .disconnected && s.useSSE then
    { s with useSSE := false, error := none, stream := cleanup s.stream }
  else s

/-- The completion effect plus the success path of `fetchResult`:

```
if (currentData?.status === 'completed' && workflowId && !result) fetchResult();
```

`fetchResult` invokes `client.getBlogResult(workflowId)`; `fetched` is
the result it returns, which is stored via `setResult`. -/
def completionEffect (fetched : BlogPostResult) (s : TrackingState) : TrackingState :=
  if (currentData s).map (·.status) = some .completed
      && s.workflowId.isSome && s.result.isNone then
    { s with fetchResultCalls := s.fetchResultCalls + 1,
             result := some fetched, isLoading := false }
  else s

/-- The failure effect:

```
if (currentData?.status === 'failed') {
  setError(currentData.error || 'Workflow failed');
  setIsLoading(false);
}
```
-/
def failureEffect (s : TrackingState) : TrackingState :=
  match currentData s with
  | some st =>
    if st.status = .failed then
      { s with error := some (st.error.getD "Workflow failed"), isLoading := false }
    else s
  | none => s

/-- The error-sync effect: `if (currentError) setError(currentError);` -/
def errorSyncEffect (s : TrackingState) : TrackingState :=
  match currentError s with
  | some msg => { s with error := some msg }
  | none => s

/-- All four effects of `useWorkflowTracking`, in declaration order:
fallback, completion, failure, error sync. -/
def runEffects (fetched : BlogPostResult) (s : TrackingState) : TrackingState :=
  errorSyncEffect (failureEffect (completionEffect fetched (fallbackEffect s)))

/-- The `retry` action of `useWorkflowTracking.ts`:

```
if (!workflowId) return;
setError(null); setIsLoading(true);
if (useSSE) { setUseSSE(false); setTimeout(() => setUseSSE(true), 1000); }
else { await mutateStatus(); }
```

The polling branch forces a refresh, which arrives later as a poll
event; the SSE branch's delayed `setUseSSE(true)` is recorded in
`pendingSSERestore`. -/
def retryAction (s : TrackingState) : TrackingState :=
  if s.workflowId.isNone then s
  else
    let s1 := { s with error := none, isLoading := true }
    if s1.useSSE then
      { s1 with useSSE := false, pendingSSERestore := true, stream := cleanup s1.stream }
    else s1

/-- The `reset` action: clear all state, restore `useSSE` to
`config.enableSSE`, and clear the SWR cache (`mutateStatus(undefined,
false)`).  The stream hook receives a null workflow id and cleans up. -/
def resetAction (cfg : TrackerConfig) (s : TrackingState) : TrackingState :=
  { s with workflowId := none, result := none, error := none, isLoading := false,
           useSSE := cfg.enableSSE, pollingData := none,
           stream := cleanup s.stream }

/-- The success path of `startGeneration`: `setIsLoading(true)`,
`setError(null)`, `setResult(null)`, then `setWorkflowId(id)` from the
submit response and, if `config.enableSSE`, `setUseSSE(true)` — in
which case the stream hook reconnects for the new id; otherwise the
stream hook stays torn down. -/
def startGenerationOk (cfg : TrackerConfig) (id : String) (s : TrackingState) : TrackingState :=
  let s1 := { s with isLoading := true, error := none, result := none,
                     workflowId := some id }
  if cfg.enableSSE then
    { s1 with useSSE := true, stream := connectToSSE (cleanup s1.stream) }
  else
    { s1 with stream := cleanup s1.stream }

/-- The prop-sync effect (`initialWorkflowId` changing to a different
job id): `setWorkflowId(initialWorkflowId); setError(null);
setResult(null);` guarded by `initialWorkflowId !== workflowId`. -/
def propSyncEffect (id : String) (s : TrackingState) : TrackingState :=
  if some id ≠ s.workflowId then
    { s with workflowId := some id, error := none, result := none }
  else s

/-- The serialized events the tracker reacts to.  SSE events can only
fire while `useSSE` holds (otherwise the stream hook has been handed a
null id and torn down); poll events can only fire while the SWR key is
non-null (`pollActive`). -/
inductive TrackingEvent where
  | sseOpen
  | sseMessage (p : SSEPayload)
  | sseError
  | sseTimerFire
  | pollSuccess (st : WorkflowStatus)
  | pollFailure (msg : String)
  | retry
  | reset
  | startGeneration (id : String)
  | propSync (id : String)
  | restoreSSETimer
deriving DecidableEq, Repr

/-- Apply one event: run its handler, then the hook's effects. -/
def applyEvent (cfg : TrackerConfig) (fetched : BlogPostResult)
    (s : TrackingState) (e : TrackingEvent) : TrackingState :=
  let s1 :=
    match e with
    | .sseOpen => if s.useSSE then { s with stream := onOpen s.stream } else s
    | .sseMessage p => if s.useSSE then { s with stream := onMessage s.stream p } else s
    | .sseError => if s.useSSE then { s with stream := onError s.stream } else s
    | .sseTimerFire => if s.useSSE then { s with stream := reconnectTimerFire s.stream } else s
    | .pollSuccess st =>
        if pollActive s then { s with pollingData := some st, pollingError := none } else s
    | .pollFailure msg =>
        if pollActive s then { s with pollingError := some msg, error := some msg } else s
    | .retry => retryAction s
    | .reset => resetAction cfg s
    | .startGeneration id => startGenerationOk cfg id s
    | .propSync id => propSyncEffect id s
    | .restoreSSETimer =>
        if s.pendingSSERestore then
          { s with useSSE := true, pendingSSERestore := false,
                   stream := connectToSSE (cleanup s.stream) }
        else s
  runEffects fetched s1

/-- Events that abandon the current job id (spec: "push is re-enabled
only by reset or by starting a new job"; `propSync` fires only when the
page hands the hook a different job id). -/
def changesJob : TrackingEvent → Bool
  | .reset => true
  | .startGeneration _ => true
  | .propSync _ => true
  | _ => false

/-- Whether an event delivers a snapshot with overall status
`completed` on the poll transport. -/
def isCompletedPollSnap : TrackingEvent → Bool
  | .pollSuccess st => st.status = .completed
  | _ => false

/-- Invariant of a tracker that has been downgraded to (or configured
for) polling on one job id: push disabled, no pending retry SSE-restore
timer, a job id held, and — whenever no result is held yet — the held
poll snapshot is not a `completed` one (the completion effect fires
within the same serialized event that delivers such a snapshot). -/
def perJobPollInv (s : TrackingState) : Prop :=
  s.useSSE = false ∧ s.pendingSSERestore = false ∧ s.workflowId.isSome = true ∧
  (s.result = none → ¬ s.pollingData.map (·.status) = some .completed)

/-- Invariant of a tracker on the push channel for one job id: push
enabled with no pending stream error (messages arrive on a clean,
connected channel; a stream error would immediately trigger the
fallback, see C4), a job id held, and — whenever no result is held yet —
the held push snapshot is not a `completed` one (the completion effect
fires within the same serialized event that delivers such a
snapshot). -/
def perJobPushInv (s : TrackingState) : Prop :=
  s.useSSE = true ∧ s.stream.error = none ∧ s.workflowId.isSome = true ∧
  (s.result = none → ¬ s.stream.data.map (·.status) = some .completed)

/-- Whether a snapshot reports terminal success. -/
def isCompletedStatus (st : WorkflowStatus) : Bool := decide (st.status = .completed)

/-- A tracker state polling job `id`: push disabled (after downgrade or
by configuration), no retry-restore timer pending. -/
def pollingTracker (id : String) : TrackingState :=
  { workflowId := some id, result := none, error := none, isLoading := true,
    useSSE := false, stream := cleanup initialStreamState,
    pollingData := none, pollingError := none,
    fetchResultCalls := 0, pendingSSERestore := false }

/-- A tracker state with an open push channel for job `id`. -/
def pushTracker (id : String) : TrackingState :=
  { workflowId := some id, result := none, error := none, isLoading := true,
    useSSE := true, stream := onOpen (connectToSSE initialStreamState),
    pollingData := none, pollingError := none,
    fetchResultCalls := 0, pendingSSERestore := false }

/-! ## Theorems: phase projection (C2, C9, C10) -/

/-- Claim C2: the build-time seven-step table is ordered, contiguous and
covers 0..100 with no gaps or overlaps (final range ending at 100), and
for every snapshot with overall status `processing`, no backend per-step
override, and integer progress `p` in `[0, 100]`, exactly one step
derives status `processing` — except at `p = 100`, where zero steps are
`processing` and the last step derives `completed`. -/
theorem exactly_one_processing_step :
    tableContiguous = true ∧
    WORKFLOW_STEPS_CONFIG.getLast? = some lastStepConfig ∧
    ∀ p : Fin 101,
      if ((p : Nat) : Int) = 100 then
        processingCount ((p : Nat) : Int) = 0 ∧
        getStepStatus (some (mkProcessing ((p : Nat) : Int))) lastStepConfig = .completed
      else processingCount ((p : Nat) : Int) = 1 := by
  decide

/-- Claim C9: `getCurrentStepKey` returns null whenever the snapshot's
overall status is not `processing` (so for `pending`, `completed` and
`failed` snapshots no step is marked active, whatever the progress). -/
theorem currentStep_null_unless_processing :
    getCurrentStepKey none = none ∧
    ∀ st : WorkflowStatus, st.status ≠ .processing → getCurrentStepKey (some st) = none := by
  refine ⟨rfl, fun st h => ?_⟩
  simp only [getCurrentStepKey]
  rw [if_pos h]

/-- Witness for `currentStep_null_unless_processing`: a failed snapshot
at progress 50 yields no current step. -/
theorem currentStep_null_unless_processing_witness :
    getCurrentStepKey (some ⟨"wf", .failed, 50, "", none, 0, 0, none⟩) = none :=
  currentStep_null_unless_processing.2 _ (by decide)

theorem getStepStatus_no_override (st : WorkflowStatus) (cfg : StepConfig)
    (hov : stepOverride st cfg.name = none) :
    getStepStatus (some st) cfg =
      if st.progress < cfg.progressRange.1 then .pending
      else if cfg.progressRange.2 ≤ st.progress then .completed
      else if st.status = .failed then .failed
      else .processing := by
  simp only [getStepStatus, hov]

theorem mem_table_range_bounds (cfg : StepConfig) (hmem : cfg ∈ WORKFLOW_STEPS_CONFIG) :
    0 ≤ cfg.progressRange.1 ∧ cfg.progressRange.1 ≤ cfg.progressRange.2 ∧
    cfg.progressRange.2 ≤ 100 := by
  fin_cases hmem <;> decide

/-- Claim C10: without a per-step override the step-status derivation is
total over all integer progress values: progress below the range start
yields `pending` (hence any negative progress yields `pending` for every
table step), and progress at or above the range end yields `completed`
even for arbitrary overall status (hence any progress above 100 yields
`completed` for every table step, a `failed` lifecycle state
notwithstanding). -/
theorem stepStatus_total_out_of_range (st : WorkflowStatus) (cfg : StepConfig)
    (hmem : cfg ∈ WORKFLOW_STEPS_CONFIG)
    (hov : stepOverride st cfg.name = none) :
    (st.progress < cfg.progressRange.1 → getStepStatus (some st) cfg = .pending) ∧
    (cfg.progressRange.2 ≤ st.progress → getStepStatus (some st) cfg = .completed) ∧
    (st.progress < 0 → getStepStatus (some st) cfg = .pending) ∧
    (100 < st.progress → getStepStatus (some st) cfg = .completed) := by
  obtain ⟨h0, hse, h100⟩ := mem_table_range_bounds cfg hmem
  have heq := getStepStatus_no_override st cfg hov
  refine ⟨fun h => ?_, fun h => ?_, fun h => ?_, fun h => ?_⟩ <;> rw [heq]
  · rw [if_pos h]
  · rw [if_neg (by omega), if_pos h]
  · rw [if_pos (by omega)]
  · rw [if_neg (by omega), if_pos (by omega)]

/-- Witness for `stepStatus_total_out_of_range`: at progress 120 of a
failed run the first step derives `completed`; at progress -3 the last
step derives `pending`. -/
theorem stepStatus_total_out_of_range_witness :
    getStepStatus (some ⟨"wf", .failed, 120, "", none, 0, 0, none⟩)
      ⟨"keyword_research", (0, 10)⟩ = .completed ∧
    getStepStatus (some ⟨"wf", .processing, -3, "", none, 0, 0, none⟩)
      ⟨"social_snippet_generation", (85, 100)⟩ = .pending :=
  ⟨(stepStatus_total_out_of_range _ _ (by decide) (by decide)).2.2.2 (by decide),
   (stepStatus_total_out_of_range _ _ (by decide) (by decide)).2.2.1 (by decide)⟩

/-! ## Theorems: push-channel connector (C3, C8) -/

set_option maxRecDepth 8192 in
/-- Claim C3 (code-bug evaluation): `onerror` calls `cleanup()`, which
resets `reconnectAttempts` to 0 before the bound check and delay
computation, so after EVERY transport error — the state after six
consecutive errors included — a reconnect is scheduled with the base
1000 ms delay (never `1000 * 2 ^ (k-1)`), the counter is left at 1, and
the 5-attempt bound is never reached; the claimed policy matches the
code's own constants and comments, not its behaviour. -/
theorem reconnect_backoff_defeated :
    (∀ s : StreamState,
      (onError s).reconnectTimer = some 1000 ∧ (onError s).reconnectAttempts = 1) ∧
    sixErrorsState.reconnectTimer = some 1000 ∧
    sixErrorsState.reconnectAttempts = 1 ∧
    sixErrorsState.error = some "Connection lost. Reconnecting..." ∧
    1 < maxReconnectAttempts := by
  refine ⟨fun s => ⟨rfl, rfl⟩, rfl, rfl, rfl, by decide⟩

/-- Claim C8: an inbound push event whose payload fails to parse is
dropped without tearing down the connection: the held snapshot is
unchanged, the event source stays open, the connection state remains
`'connected'`, only the non-fatal parse-error message is surfaced, a
subsequent well-formed event is still applied, and a tracker holding
this stream state does not trigger the polling fallback. -/
theorem parse_error_drops_single_event (s : StreamState) (p : SSEPayload)
    (hp : parseSSE p = none) (hc : s.connectionState = .connected) :
    (onMessage s p).data = s.data ∧
    (onMessage s p).esOpen = s.esOpen ∧
    (onMessage s p).connectionState = .connected ∧
    (onMessage s p).error = some "Failed to parse status update" ∧
    (∀ st : WorkflowStatus, (onMessage (onMessage s p) (.ok st)).data = some st) ∧
    (∀ t : TrackingState, t.stream = onMessage s p → fallbackEffect t = t) := by
  cases p with
  | ok st => simp [parseSSE] at hp
  | malformed =>
    refine ⟨rfl, rfl, hc, rfl, fun st => ?_, fun t ht => ?_⟩
    · simp only [onMessage, parseSSE]
      split <;> rfl
    · unfold fallbackEffect
      rw [if_neg]
      have : t.stream.connectionState = .connected := by rw [ht]; exact hc
      simp [this]

/-- Witness for `parse_error_drops_single_event` on a freshly opened
connection. -/
theorem parse_error_drops_single_event_witness :
    (onMessage (onOpen (connectToSSE initialStreamState)) .malformed).data = none ∧
    (onMessage (onOpen (connectToSSE initialStreamState)) .malformed).connectionState = .connected := by
  have h := parse_error_drops_single_event (onOpen (connectToSSE initialStreamState)) .malformed rfl rfl
  exact ⟨h.1, h.2.2.1⟩

@[simp] theorem fallbackEffect_workflowId (s : TrackingState) :
    (fallbackEffect s).workflowId = s.workflowId := by
  unfold fallbackEffect; split <;> rfl

@[simp] theorem fallbackEffect_result (s : TrackingState) :
    (fallbackEffect s).result = s.result := by
  unfold fallbackEffect; split <;> rfl

@[simp] theorem fallbackEffect_pollingData (s : TrackingState) :
    (fallbackEffect s).pollingData = s.pollingData := by
  unfold fallbackEffect; split <;> rfl

@[simp] theorem fallbackEffect_pollingError (s : TrackingState) :
    (fallbackEffect s).pollingError = s.pollingError := by
  unfold fallbackEffect; split <;> rfl

@[simp] theorem fallbackEffect_fetchResultCalls (s : TrackingState) :
    (fallbackEffect s).fetchResultCalls = s.fetchResultCalls := by
  unfold fallbackEffect; split <;> rfl

@[simp] theorem fallbackEffect_pendingSSERestore (s : TrackingState) :
    (fallbackEffect s).pendingSSERestore = s.pendingSSERestore := by
  unfold fallbackEffect; split <;> rfl

@[simp] theorem fallbackEffect_stream_data (s : TrackingState) :
    (fallbackEffect s).stream.data = s.stream.data := by
  unfold fallbackEffect; split <;> rfl

theorem fallbackEffect_of_useSSE_false (s : TrackingState) (h : s.useSSE = false) :
    fallbackEffect s = s := by
  unfold fallbackEffect; simp [h]

@[simp] theorem completionEffect_workflowId (r : BlogPostResult) (s : TrackingState) :
    (completionEffect r s).workflowId = s.workflowId := by
  unfold completionEffect; split <;> rfl

@[simp] theorem completionEffect_useSSE (r : BlogPostResult) (s : TrackingState) :
    (completionEffect r s).useSSE = s.useSSE := by
  unfold completionEffect; split <;> rfl

@[simp] theorem completionEffect_stream (r : BlogPostResult) (s : TrackingState) :
    (completionEffect r s).stream = s.stream := by
  unfold completionEffect; split <;> rfl

@[simp] theorem completionEffect_pollingData (r : BlogPostResult) (s : TrackingState) :
    (completionEffect r s).pollingData = s.pollingData := by
  unfold completionEffect; split <;> rfl

@[simp] theorem completionEffect_pollingError (r : BlogPostResult) (s : TrackingState) :
    (completionEffect r s).pollingError = s.pollingError := by
  unfold completionEffect; split <;> rfl

@[simp] theorem completionEffect_pendingSSERestore (r : BlogPostResult) (s : TrackingState) :
    (completionEffect r s).pendingSSERestore = s.pendingSSERestore := by
  unfold completionEffect; split <;> rfl

@[simp] theorem completionEffect_error (r : BlogPostResult) (s : TrackingState) :
    (completionEffect r s).error = s.error := by
  unfold completionEffect; split <;> rfl

@[simp] theorem failureEffect_workflowId (s : TrackingState) :
    (failureEffect s).workflowId = s.workflowId := by
  unfold failureEffect; split
  · split <;> rfl
  · rfl

@[simp] theorem failureEffect_result (s : TrackingState) :
    (failureEffect s).result = s.result := by
  unfold failureEffect; split
  · split <;> rfl
  · rfl

@[simp] theorem failureEffect_useSSE (s : TrackingState) :
    (failureEffect s).useSSE = s.useSSE := by
  unfold failureEffect; split
  · split <;> rfl
  · rfl

@[simp] theorem failureEffect_stream (s : TrackingState) :
    (failureEffect s).stream = s.stream := by
  unfold failureEffect; split
  · split <;> rfl
  · rfl

@[simp] theorem failureEffect_pollingData (s : TrackingState) :
    (failureEffect s).pollingData = s.pollingData := by
  unfold failureEffect; split
  · split <;> rfl
  · rfl

@[simp] theorem failureEffect_pollingError (s : TrackingState) :
    (failureEffect s).pollingError = s.pollingError := by
  unfold failureEffect; split
  · split <;> rfl
  · rfl

@[simp] theorem failureEffect_fetchResultCalls (s : TrackingState) :
    (failureEffect s).fetchResultCalls = s.fetchResultCalls := by
  unfold failureEffect; split
  · split <;> rfl
  · rfl

@[simp] theorem failureEffect_pendingSSERestore (s : TrackingState) :
    (failureEffect s).pendingSSERestore = s.pendingSSERestore := by
  unfold failureEffect; split
  · split <;> rfl
  · rfl

@[simp] theorem errorSyncEffect_workflowId (s : TrackingState) :
    (errorSyncEffect s).workflowId = s.workflowId := by
  unfold errorSyncEffect; split <;> rfl

@[simp] theorem errorSyncEffect_result (s : TrackingState) :
    (errorSyncEffect s).result = s.result := by
  unfold errorSyncEffect; split <;> rfl

@[simp] theorem errorSyncEffect_useSSE (s : TrackingState) :
    (errorSyncEffect s).useSSE = s.useSSE := by
  unfold errorSyncEffect; split <;> rfl

@[simp] theorem errorSyncEffect_stream (s : TrackingState) :
    (errorSyncEffect s).stream = s.stream := by
  unfold errorSyncEffect; split <;> rfl

@[simp] theorem errorSyncEffect_pollingData (s : TrackingState) :
    (errorSyncEffect s).pollingData = s.pollingData := by
  unfold errorSyncEffect; split <;> rfl

@[simp] theorem errorSyncEffect_pollingError (s : TrackingState) :
    (errorSyncEffect s).pollingError = s.pollingError := by
  unfold errorSyncEffect; split <;> rfl

@[simp] theorem errorSyncEffect_fetchResultCalls (s : TrackingState) :
    (errorSyncEffect s).fetchResultCalls = s.fetchResultCalls := by
  unfold errorSyncEffect; split <;> rfl

@[simp] theorem errorSyncEffect_pendingSSERestore (s : TrackingState) :
    (errorSyncEffect s).pendingSSERestore = s.pendingSSERestore := by
  unfold errorSyncEffect; split <;> rfl

theorem runEffects_workflowId (r : BlogPostResult) (s : TrackingState) :
    (runEffects r s).workflowId = s.workflowId := by
  unfold runEffects; simp

theorem runEffects_pollingData (r : BlogPostResult) (s : TrackingState) :
    (runEffects r s).pollingData = s.pollingData := by
  unfold runEffects; simp

theorem runEffects_pendingSSERestore (r : BlogPostResult) (s : TrackingState) :
    (runEffects r s).pendingSSERestore = s.pendingSSERestore := by
  unfold runEffects; simp

theorem runEffects_useSSE_false (r : BlogPostResult) (s : TrackingState)
    (h : s.useSSE = false) :
    (runEffects r s).useSSE = false := by
  unfold runEffects
  rw [fallbackEffect_of_useSSE_false s h]
  simp [h]

theorem onMessage_ok_error (t : StreamState) (stx : WorkflowStatus) :
    (onMessage t (.ok stx)).error = t.error := by
  simp only [onMessage, parseSSE]
  split <;> rfl

theorem onMessage_ok_data (t : StreamState) (stx : WorkflowStatus) :
    (onMessage t (.ok stx)).data = some stx := by
  simp only [onMessage, parseSSE]
  split <;> rfl

theorem fallbackEffect_of_no_error (s : TrackingState) (h : s.stream.error = none) :
    fallbackEffect s = s := by
  unfold fallbackEffect; simp [h]

theorem runEffects_stream_of_no_error (r : BlogPostResult) (s : TrackingState)
    (h : s.stream.error = none) :
    (runEffects r s).stream = s.stream ∧ (runEffects r s).useSSE = s.useSSE := by
  unfold runEffects
  rw [fallbackEffect_of_no_error s h]
  simp

theorem applyEvent_pollSuccess_active (cfg : TrackerConfig) (r : BlogPostResult)
    (s : TrackingState) (st : WorkflowStatus) (h : pollActive s = true) :
    pollActive (applyEvent cfg r s (.pollSuccess st)) = true ∧
    currentData (applyEvent cfg r s (.pollSuccess st)) = some st := by
  have huse : s.useSSE = false := by
    simp only [pollActive, Bool.and_eq_true, Bool.not_eq_true'] at h; exact h.1
  have hwf : s.workflowId.isSome = true := by
    simp only [pollActive, Bool.and_eq_true, Bool.not_eq_true'] at h; exact h.2
  have hred : applyEvent cfg r s (.pollSuccess st)
      = runEffects r { s with pollingData := some st, pollingError := none } := by
    simp only [applyEvent]; rw [if_pos h]
  rw [hred]
  have huse1 : ({ s with pollingData := some st, pollingError := none } : TrackingState).useSSE
      = false := huse
  constructor
  · simp only [pollActive, runEffects_workflowId, runEffects_useSSE_false _ _ huse1]
    simpa using hwf
  · simp only [currentData, runEffects_useSSE_false _ _ huse1, runEffects_pollingData]
    rfl

theorem applyEvent_sseMessage_clean (cfg : TrackerConfig) (r : BlogPostResult)
    (s : TrackingState) (stx : WorkflowStatus)
    (h : s.useSSE = true) (herr : s.stream.error = none) :
    (applyEvent cfg r s (.sseMessage (.ok stx))).useSSE = true ∧
    (applyEvent cfg r s (.sseMessage (.ok stx))).stream.error = none ∧
    (applyEvent cfg r s (.sseMessage (.ok stx))).stream.data = some stx := by
  have hred : applyEvent cfg r s (.sseMessage (.ok stx))
      = runEffects r { s with stream := onMessage s.stream (.ok stx) } := by
    simp only [applyEvent]; rw [if_pos h]
  have herr1 : ({ s with stream := onMessage s.stream (.ok stx) } : TrackingState).stream.error
      = none := by
    show (onMessage s.stream (.ok stx)).error = none
    rw [onMessage_ok_error]; exact herr
  obtain ⟨hstream, huse⟩ := runEffects_stream_of_no_error r _ herr1
  rw [hred]
  refine ⟨by rw [huse]; exact h, by rw [hstream]; exact herr1, ?_⟩
  rw [hstream]
  show (onMessage s.stream (.ok stx)).data = some stx
  exact onMessage_ok_data _ _

/-- Claim C1 (amended): applying a delivered snapshot on the active
transport unconditionally replaces the tracker's visible status
(last-write-wins): no `updatedAt` comparison is performed, so after
applying `st1` then `st2` the visible status is `st2`, whatever their
timestamps.  Holds on the poll path for any poll-active tracker, and on
the push path for any connected push tracker with no pending stream
error. -/
theorem snapshot_last_write_wins (cfg : TrackerConfig) (r : BlogPostResult)
    (s : TrackingState) (st1 st2 : WorkflowStatus) :
    (pollActive s = true →
      currentData (applyEvent cfg r (applyEvent cfg r s (.pollSuccess st1))
        (.pollSuccess st2)) = some st2) ∧
    (s.useSSE = true → s.stream.error = none →
      currentData (applyEvent cfg r (applyEvent cfg r s (.sseMessage (.ok st1)))
        (.sseMessage (.ok st2))) = some st2) := by
  constructor
  · intro h
    exact (applyEvent_pollSuccess_active cfg r _ st2
      (applyEvent_pollSuccess_active cfg r s st1 h).1).2
  · intro h herr
    obtain ⟨h1, h2, _⟩ := applyEvent_sseMessage_clean cfg r s st1 h herr
    obtain ⟨h1', _, h3'⟩ := applyEvent_sseMessage_clean cfg r _ st2 h1 h2
    simp only [currentData, h1', if_pos]
    exact h3'

/-- Counterexample to claim C1 as stated: apply the snapshot with
progress 80 and `updated_at` T2 = 2, then the stale snapshot with
progress 50 and `updated_at` T1 = 1 < T2; the displayed progress becomes
50, not 80 — the stale snapshot is not discarded. -/
theorem stale_snapshot_overwrites :
    ((⟨"abc", .processing, 50, "y", none, 0, 1, none⟩ : WorkflowStatus).updated_at
      < (⟨"abc", .processing, 80, "x", none, 0, 2, none⟩ : WorkflowStatus).updated_at) ∧
    (currentData (applyEvent ⟨false, defaultPollingInterval⟩ ⟨"post"⟩ (pollingTracker "abc")
        (.pollSuccess ⟨"abc", .processing, 80, "x", none, 0, 2, none⟩))).map (·.progress)
      = some 80 ∧
    (currentData (applyEvent ⟨false, defaultPollingInterval⟩ ⟨"post"⟩
        (applyEvent ⟨false, defaultPollingInterval⟩ ⟨"post"⟩ (pollingTracker "abc")
          (.pollSuccess ⟨"abc", .processing, 80, "x", none, 0, 2, none⟩))
        (.pollSuccess ⟨"abc", .processing, 50, "y", none, 0, 1, none⟩))).map (·.progress)
      = some 50 := by
  refine ⟨by decide, rfl, rfl⟩

/-- Witness for `snapshot_last_write_wins` at concrete snapshots on both
transports. -/
theorem snapshot_last_write_wins_witness :
    (currentData (applyEvent ⟨false, defaultPollingInterval⟩ ⟨"post"⟩
        (applyEvent ⟨false, defaultPollingInterval⟩ ⟨"post"⟩ (pollingTracker "abc")
          (.pollSuccess ⟨"abc", .processing, 80, "x", none, 0, 2, none⟩))
        (.pollSuccess ⟨"abc", .processing, 50, "y", none, 0, 1, none⟩))
      = some ⟨"abc", .processing, 50, "y", none, 0, 1, none⟩) ∧
    (currentData (applyEvent ⟨true, defaultPollingInterval⟩ ⟨"post"⟩
        (applyEvent ⟨true, defaultPollingInterval⟩ ⟨"post"⟩ (pushTracker "abc")
          (.sseMessage (.ok ⟨"abc", .processing, 80, "x", none, 0, 2, none⟩)))
        (.sseMessage (.ok ⟨"abc", .processing, 50, "y", none, 0, 1, none⟩)))
      = some ⟨"abc", .processing, 50, "y", none, 0, 1, none⟩) :=
  ⟨(snapshot_last_write_wins ⟨false, defaultPollingInterval⟩ ⟨"post"⟩ (pollingTracker "abc")
      ⟨"abc", .processing, 80, "x", none, 0, 2, none⟩
      ⟨"abc", .processing, 50, "y", none, 0, 1, none⟩).1 rfl,
   (snapshot_last_write_wins ⟨true, defaultPollingInterval⟩ ⟨"post"⟩ (pushTracker "abc")
      ⟨"abc", .processing, 80, "x", none, 0, 2, none⟩
      ⟨"abc", .processing, 50, "y", none, 0, 1, none⟩).2 rfl rfl⟩

/-- Counterexample to claim C6 as stated: after a terminal (`completed`)
snapshot has been received and is held, the SWR key is still non-null
(`pollActive`), so the next status-fetch tick still fires — receiving a
terminal snapshot does not stop the poll loop. -/
theorem poll_loop_ticks_after_terminal :
    (currentData (applyEvent ⟨false, defaultPollingInterval⟩ ⟨"post"⟩ (pollingTracker "abc")
        (.pollSuccess ⟨"abc", .completed, 100, "done", none, 0, 10, none⟩))).map (·.status)
      = some .completed ∧
    pollActive (applyEvent ⟨false, defaultPollingInterval⟩ ⟨"post"⟩ (pollingTracker "abc")
        (.pollSuccess ⟨"abc", .completed, 100, "done", none, 0, 10, none⟩)) = true := by
  constructor <;> rfl

/-- Claim C6 (amended): once activated, the poll loop keeps ticking at
the fixed configured interval across delivered snapshots (terminal ones
included) and across retryable tick errors, and it stops only on
explicit deactivation — here, `reset`, which clears the job id. -/
theorem poll_loop_stop_conditions (cfg : TrackerConfig) (r : BlogPostResult)
    (s : TrackingState) (st : WorkflowStatus) (msg : String)
    (h : pollActive s = true) :
    pollActive (applyEvent cfg r s (.pollSuccess st)) = true ∧
    pollActive (applyEvent cfg r s (.pollFailure msg)) = true ∧
    pollActive (applyEvent cfg r s .reset) = false := by
  have huse : s.useSSE = false := by
    simp only [pollActive, Bool.and_eq_true, Bool.not_eq_true'] at h; exact h.1
  refine ⟨(applyEvent_pollSuccess_active cfg r s st h).1, ?_, ?_⟩
  · have hred : applyEvent cfg r s (.pollFailure msg)
        = runEffects r { s with pollingError := some msg, error := some msg } := by
      simp only [applyEvent]; rw [if_pos h]
    rw [hred]
    have huse1 : ({ s with pollingError := some msg, error := some msg } : TrackingState).useSSE
        = false := huse
    have hwf : s.workflowId.isSome = true := by
      simp only [pollActive, Bool.and_eq_true, Bool.not_eq_true'] at h; exact h.2
    simp only [pollActive, runEffects_workflowId, runEffects_useSSE_false _ _ huse1]
    simpa using hwf
  · have hred : applyEvent cfg r s .reset = runEffects r (resetAction cfg s) := rfl
    rw [hred]
    simp only [pollActive, runEffects_workflowId]
    have hnone : (resetAction cfg s).workflowId = none := rfl
    rw [hnone]
    simp

theorem onError_error (t : StreamState) :
    (onError t).error = some "Connection lost. Reconnecting..." := rfl

theorem onError_connectionState (t : StreamState) :
    (onError t).connectionState = .disconnected := rfl

theorem applyEvent_sseError_downgrades (cfg : TrackerConfig) (r : BlogPostResult)
    (s : TrackingState) (h : s.useSSE = true) :
    (applyEvent cfg r s .sseError).useSSE = false := by
  have hred : applyEvent cfg r s .sseError
      = runEffects r { s with stream := onError s.stream } := by
    simp only [applyEvent]; rw [if_pos h]
  rw [hred]
  unfold runEffects
  have hcond : fallbackEffect { s with stream := onError s.stream }
      = { ({ s with stream := onError s.stream } : TrackingState) with
            useSSE := false, error := none, stream := cleanup (onError s.stream) } := by
    unfold fallbackEffect
    rw [if_pos]
    show ((onError s.stream).error.isSome &&
      (decide ((onError s.stream).connectionState = .disconnected) && s.useSSE)) = true
    rw [h]; rfl
  rw [hcond]
  simp

theorem retryAction_useSSE_false (s : TrackingState) (h : s.useSSE = false) :
    (retryAction s).useSSE = false ∧
    (retryAction s).pendingSSERestore = s.pendingSSERestore := by
  unfold retryAction
  split
  · exact ⟨h, rfl⟩
  · rw [if_neg (by simp [h])]
    exact ⟨h, rfl⟩

theorem useSSE_false_absorbing (cfg : TrackerConfig) (r : BlogPostResult)
    (s : TrackingState) (e : TrackingEvent) (h : s.useSSE = false)
    (hp : s.pendingSSERestore = false) (hc : changesJob e = false) :
    (applyEvent cfg r s e).useSSE = false ∧
    (applyEvent cfg r s e).pendingSSERestore = false := by
  cases e with
  | reset => simp [changesJob] at hc
  | startGeneration id => simp [changesJob] at hc
  | propSync id => simp [changesJob] at hc
  | sseOpen =>
    have hred : applyEvent cfg r s .sseOpen = runEffects r s := by
      simp only [applyEvent]; rw [if_neg (by simp [h])]
    rw [hred]
    exact ⟨runEffects_useSSE_false r s h, by rw [runEffects_pendingSSERestore]; exact hp⟩
  | sseMessage p =>
    have hred : applyEvent cfg r s (.sseMessage p) = runEffects r s := by
      simp only [applyEvent]; rw [if_neg (by simp [h])]
    rw [hred]
    exact ⟨runEffects_useSSE_false r s h, by rw [runEffects_pendingSSERestore]; exact hp⟩
  | sseError =>
    have hred : applyEvent cfg r s .sseError = runEffects r s := by
      simp only [applyEvent]; rw [if_neg (by simp [h])]
    rw [hred]
    exact ⟨runEffects_useSSE_false r s h, by rw [runEffects_pendingSSERestore]; exact hp⟩
  | sseTimerFire =>
    have hred : applyEvent cfg r s .sseTimerFire = runEffects r s := by
      simp only [applyEvent]; rw [if_neg (by simp [h])]
    rw [hred]
    exact ⟨runEffects_useSSE_false r s h, by rw [runEffects_pendingSSERestore]; exact hp⟩
  | pollSuccess st =>
    simp only [applyEvent]
    constructor
    · split
      · exact runEffects_useSSE_false r _ h
      · exact runEffects_useSSE_false r _ h
    · split
      · rw [runEffects_pendingSSERestore]; exact hp
      · rw [runEffects_pendingSSERestore]; exact hp
  | pollFailure msg =>
    simp only [applyEvent]
    constructor
    · split
      · exact runEffects_useSSE_false r _ h
      · exact runEffects_useSSE_false r _ h
    · split
      · rw [runEffects_pendingSSERestore]; exact hp
      · rw [runEffects_pendingSSERestore]; exact hp
  | retry =>
    have hret := retryAction_useSSE_false s h
    have hred : applyEvent cfg r s .retry = runEffects r (retryAction s) := rfl
    rw [hred]
    refine ⟨runEffects_useSSE_false r _ hret.1, ?_⟩
    rw [runEffects_pendingSSERestore, hret.2]; exact hp
  | restoreSSETimer =>
    have hred : applyEvent cfg r s .restoreSSETimer = runEffects r s := by
      simp only [applyEvent]; rw [if_neg (by simp [hp])]
    rw [hred]
    exact ⟨runEffects_useSSE_false r s h, by rw [runEffects_pendingSSERestore]; exact hp⟩

/-- Counterexample to claim C4 as stated: from a connected push tracker,
a single transport error — far fewer than the 5 reconnect attempts the
claim requires to be exhausted first — already switches the tracker to
polling (the fallback effect sees `sseError` set and `connectionState`
`'disconnected'` immediately after the first `onerror`). -/
theorem sse_fallback_on_first_error :
    (pushTracker "abc").useSSE = true ∧
    (applyEvent ⟨true, defaultPollingInterval⟩ ⟨"post"⟩ (pushTracker "abc") .sseError).useSSE
      = false ∧
    pollActive (applyEvent ⟨true, defaultPollingInterval⟩ ⟨"post"⟩ (pushTracker "abc")
      .sseError) = true ∧
    1 < maxReconnectAttempts := by
  refine ⟨rfl, rfl, rfl, by decide⟩

/-- Claim C4 (amended): the tracker downgrades from push to polling on
the first push transport error (not after exhausting the maximum
reconnect attempts), and the downgrade is one-directional for the job
id: from any downgraded state (push off, no pending retry restore
timer), no event other than `reset`, a new job submission, or a new
externally supplied job id ever re-enables the push channel. -/
theorem push_poll_downgrade (cfg : TrackerConfig) (r : BlogPostResult) :
    (∀ s : TrackingState, s.useSSE = true → (applyEvent cfg r s .sseError).useSSE = false) ∧
    (∀ (s : TrackingState) (e : TrackingEvent),
      s.useSSE = false → s.pendingSSERestore = false → changesJob e = false →
      (applyEvent cfg r s e).useSSE = false ∧
      (applyEvent cfg r s e).pendingSSERestore = false) :=
  ⟨fun s h => applyEvent_sseError_downgrades cfg r s h,
   fun s e h hp hc => useSSE_false_absorbing cfg r s e h hp hc⟩

/-- Witness for `push_poll_downgrade` at concrete tracker states. -/
theorem push_poll_downgrade_witness :
    (applyEvent ⟨true, defaultPollingInterval⟩ ⟨"post"⟩ (pushTracker "abc") .sseError).useSSE
      = false ∧
    (applyEvent ⟨true, defaultPollingInterval⟩ ⟨"post"⟩ (pollingTracker "abc") .retry).useSSE
      = false :=
  ⟨(push_poll_downgrade ⟨true, defaultPollingInterval⟩ ⟨"post"⟩).1 (pushTracker "abc") rfl,
   ((push_poll_downgrade ⟨true, defaultPollingInterval⟩ ⟨"post"⟩).2 (pollingTracker "abc")
      .retry rfl rfl rfl).1⟩

theorem currentData_of_poll (t : TrackingState) (hu : t.useSSE = false) :
    currentData t = t.pollingData := by
  simp [currentData, hu]

theorem completionEffect_noop (r : BlogPostResult) (t : TrackingState)
    (hu : t.useSSE = false)
    (hinv : t.result = none → ¬ t.pollingData.map (·.status) = some .completed) :
    completionEffect r t = t := by
  unfold completionEffect
  split
  · rename_i hcond
    exfalso
    simp only [Bool.and_eq_true, decide_eq_true_eq, Option.isNone_iff_eq_none] at hcond
    refine hinv hcond.2 ?_
    rw [← currentData_of_poll t hu]
    exact hcond.1.1
  · rfl

theorem completionEffect_fires (r : BlogPostResult) (t : TrackingState)
    (hc : (currentData t).map (·.status) = some .completed)
    (hw : t.workflowId.isSome = true) (hr : t.result = none) :
    completionEffect r t =
      { t with fetchResultCalls := t.fetchResultCalls + 1, result := some r,
               isLoading := false } := by
  unfold completionEffect
  rw [if_pos]
  simp [hc, hw, hr]

theorem runEffects_inv_noop (r : BlogPostResult) (t : TrackingState)
    (hu : t.useSSE = false)
    (hinv : t.result = none → ¬ t.pollingData.map (·.status) = some .completed) :
    (runEffects r t).result = t.result ∧
    (runEffects r t).fetchResultCalls = t.fetchResultCalls ∧
    (runEffects r t).useSSE = false ∧
    (runEffects r t).pendingSSERestore = t.pendingSSERestore ∧
    (runEffects r t).workflowId = t.workflowId ∧
    (runEffects r t).pollingData = t.pollingData := by
  unfold runEffects
  rw [fallbackEffect_of_useSSE_false t hu, completionEffect_noop r t hu hinv]
  refine ⟨?_, ?_, ?_, ?_, ?_, ?_⟩ <;> simp [hu]

theorem runEffects_completes (r : BlogPostResult) (t : TrackingState)
    (hu : t.useSSE = false)
    (hc : t.pollingData.map (·.status) = some .completed)
    (hw : t.workflowId.isSome = true) (hr : t.result = none) :
    (runEffects r t).result = some r ∧
    (runEffects r t).fetchResultCalls = t.fetchResultCalls + 1 ∧
    (runEffects r t).useSSE = false ∧
    (runEffects r t).pendingSSERestore = t.pendingSSERestore ∧
    (runEffects r t).workflowId = t.workflowId ∧
    (runEffects r t).pollingData = t.pollingData := by
  unfold runEffects
  rw [fallbackEffect_of_useSSE_false t hu,
      completionEffect_fires r t (by rw [currentData_of_poll t hu]; exact hc) hw hr]
  refine ⟨?_, ?_, ?_, ?_, ?_, ?_⟩ <;> simp [hu]

theorem c5_step (cfg : TrackerConfig) (r : BlogPostResult) (s : TrackingState)
    (e : TrackingEvent) (h : perJobPollInv s) (hc : changesJob e = false) :
    perJobPollInv (applyEvent cfg r s e) ∧
    (applyEvent cfg r s e).fetchResultCalls =
      s.fetchResultCalls +
        (if isCompletedPollSnap e = true ∧ s.result = none then 1 else 0) ∧
    ((applyEvent cfg r s e).result = none ↔
      (s.result = none ∧ isCompletedPollSnap e = false)) := by
  obtain ⟨h1, h2, h3, h4⟩ := h
  have hpa : pollActive s = true := by simp [pollActive, h1, h3]
  cases e with
  | reset => simp [changesJob] at hc
  | startGeneration id => simp [changesJob] at hc
  | propSync id => simp [changesJob] at hc
  | pollSuccess st =>
    have hred : applyEvent cfg r s (.pollSuccess st)
        = runEffects r { s with pollingData := some st, pollingError := none } := by
      simp only [applyEvent]; rw [if_pos hpa]
    rw [hred]
    by_cases hst : st.status = .completed
    · by_cases hr : s.result = none
      · obtain ⟨g1, g2, g3, g4, g5, g6⟩ := runEffects_completes r
          { s with pollingData := some st, pollingError := none } h1
          (by simp [hst]) h3 hr
        refine ⟨⟨g3, by rw [g4]; exact h2, by rw [g5]; exact h3, ?_⟩, ?_, ?_⟩
        · intro hres; rw [g1] at hres; exact absurd hres (by simp)
        · rw [g2]; simp [isCompletedPollSnap, hst, hr]
        · rw [g1]; simp [isCompletedPollSnap, hst, hr]
      · obtain ⟨g1, g2, g3, g4, g5, g6⟩ := runEffects_inv_noop r
          { s with pollingData := some st, pollingError := none } h1
          (by intro hres; exact absurd hres hr)
        refine ⟨⟨g3, by rw [g4]; exact h2, by rw [g5]; exact h3, ?_⟩, ?_, ?_⟩
        · intro hres; rw [g1] at hres; exact absurd hres hr
        · rw [g2]; simp [isCompletedPollSnap, hst, hr]
        · rw [g1]; simp [isCompletedPollSnap, hst, hr]
    · obtain ⟨g1, g2, g3, g4, g5, g6⟩ := runEffects_inv_noop r
        { s with pollingData := some st, pollingError := none } h1
        (by intro _; simp [hst])
      refine ⟨⟨g3, by rw [g4]; exact h2, by rw [g5]; exact h3, ?_⟩, ?_, ?_⟩
      · intro _; rw [g6]; simp [hst]
      · rw [g2]; simp [isCompletedPollSnap, hst]
      · rw [g1]; simp [isCompletedPollSnap, hst]
  | pollFailure msg =>
    have hred : applyEvent cfg r s (.pollFailure msg)
        = runEffects r { s with pollingError := some msg, error := some msg } := by
      simp only [applyEvent]; rw [if_pos hpa]
    rw [hred]
    obtain ⟨g1, g2, g3, g4, g5, g6⟩ := runEffects_inv_noop r
      { s with pollingError := some msg, error := some msg } h1 h4
    refine ⟨⟨g3, by rw [g4]; exact h2, by rw [g5]; exact h3, ?_⟩, ?_, ?_⟩
    · intro hres; rw [g1] at hres; rw [g6]; exact h4 hres
    · rw [g2]; simp [isCompletedPollSnap]
    · rw [g1]; simp [isCompletedPollSnap]
  | sseOpen =>
    have hred : applyEvent cfg r s .sseOpen = runEffects r s := by
      simp only [applyEvent]; rw [if_neg (by simp [h1])]
    rw [hred]
    obtain ⟨g1, g2, g3, g4, g5, g6⟩ := runEffects_inv_noop r s h1 h4
    refine ⟨⟨g3, by rw [g4]; exact h2, by rw [g5]; exact h3, ?_⟩, ?_, ?_⟩
    · intro hres; rw [g1] at hres; rw [g6]; exact h4 hres
    · rw [g2]; simp [isCompletedPollSnap]
    · rw [g1]; simp [isCompletedPollSnap]
  | sseMessage p =>
    have hred : applyEvent cfg r s (.sseMessage p) = runEffects r s := by
      simp only [applyEvent]; rw [if_neg (by simp [h1])]
    rw [hred]
    obtain ⟨g1, g2, g3, g4, g5, g6⟩ := runEffects_inv_noop r s h1 h4
    refine ⟨⟨g3, by rw [g4]; exact h2, by rw [g5]; exact h3, ?_⟩, ?_, ?_⟩
    · intro hres; rw [g1] at hres; rw [g6]; exact h4 hres
    · rw [g2]; simp [isCompletedPollSnap]
    · rw [g1]; simp [isCompletedPollSnap]
  | sseError =>
    have hred : applyEvent cfg r s .sseError = runEffects r s := by
      simp only [applyEvent]; rw [if_neg (by simp [h1])]
    rw [hred]
    obtain ⟨g1, g2, g3, g4, g5, g6⟩ := runEffects_inv_noop r s h1 h4
    refine ⟨⟨g3, by rw [g4]; exact h2, by rw [g5]; exact h3, ?_⟩, ?_, ?_⟩
    · intro hres; rw [g1] at hres; rw [g6]; exact h4 hres
    · rw [g2]; simp [isCompletedPollSnap]
    · rw [g1]; simp [isCompletedPollSnap]
  | sseTimerFire =>
    have hred : applyEvent cfg r s .sseTimerFire = runEffects r s := by
      simp only [applyEvent]; rw [if_neg (by simp [h1])]
    rw [hred]
    obtain ⟨g1, g2, g3, g4, g5, g6⟩ := runEffects_inv_noop r s h1 h4
    refine ⟨⟨g3, by rw [g4]; exact h2, by rw [g5]; exact h3, ?_⟩, ?_, ?_⟩
    · intro hres; rw [g1] at hres; rw [g6]; exact h4 hres
    · rw [g2]; simp [isCompletedPollSnap]
    · rw [g1]; simp [isCompletedPollSnap]
  | restoreSSETimer =>
    have hred : applyEvent cfg r s .restoreSSETimer = runEffects r s := by
      simp only [applyEvent]; rw [if_neg (by simp [h2])]
    rw [hred]
    obtain ⟨g1, g2, g3, g4, g5, g6⟩ := runEffects_inv_noop r s h1 h4
    refine ⟨⟨g3, by rw [g4]; exact h2, by rw [g5]; exact h3, ?_⟩, ?_, ?_⟩
    · intro hres; rw [g1] at hres; rw [g6]; exact h4 hres
    · rw [g2]; simp [isCompletedPollSnap]
    · rw [g1]; simp [isCompletedPollSnap]
  | retry =>
    have hret := retryAction_useSSE_false s h1
    have hred : applyEvent cfg r s .retry = runEffects r (retryAction s) := rfl
    have hfields : (retryAction s).result = s.result ∧
        (retryAction s).pollingData = s.pollingData ∧
        (retryAction s).workflowId = s.workflowId ∧
        (retryAction s).fetchResultCalls = s.fetchResultCalls := by
      unfold retryAction
      split
      · exact ⟨rfl, rfl, rfl, rfl⟩
      · rw [if_neg (by simp [h1])]
        exact ⟨rfl, rfl, rfl, rfl⟩
    obtain ⟨f1, f2, f3, f4⟩ := hfields
    rw [hred]
    obtain ⟨g1, g2, g3, g4, g5, g6⟩ := runEffects_inv_noop r (retryAction s) hret.1
      (by rw [f1, f2]; exact h4)
    refine ⟨⟨g3, by rw [g4, hret.2]; exact h2, by rw [g5, f3]; exact h3, ?_⟩, ?_, ?_⟩
    · intro hres; rw [g1, f1] at hres; rw [g6, f2]; exact h4 hres
    · rw [g2, f4]; simp [isCompletedPollSnap]
    · rw [g1, f1]; simp [isCompletedPollSnap]

theorem c5_fold (cfg : TrackerConfig) (r : BlogPostResult) :
    ∀ (events : List TrackingEvent) (s : TrackingState),
      perJobPollInv s → (∀ e ∈ events, changesJob e = false) →
      (events.foldl (applyEvent cfg r) s).fetchResultCalls =
        s.fetchResultCalls +
          (if s.result = none ∧ events.any isCompletedPollSnap = true then 1 else 0) := by
  intro events
  induction events with
  | nil => intro s hs he; simp
  | cons e rest ih =>
    intro s hs he
    simp only [List.foldl_cons, List.any_cons]
    obtain ⟨hinv, hcalls, hres⟩ := c5_step cfg r s e hs (he e (by simp))
    rw [ih _ hinv (fun x hx => he x (by simp [hx])), hcalls]
    by_cases h1 : isCompletedPollSnap e = true <;>
      by_cases h2 : s.result = none <;>
      by_cases h3 : rest.any isCompletedPollSnap = true <;>
      simp [h1, h2, h3, hres, Bool.or_eq_true]

theorem currentData_of_push (t : TrackingState) (hu : t.useSSE = true) :
    currentData t = t.stream.data := by
  simp [currentData, hu]

theorem completionEffect_noop_cd (r : BlogPostResult) (t : TrackingState)
    (hinv : t.result = none → ¬ (currentData t).map (·.status) = some .completed) :
    completionEffect r t = t := by
  unfold completionEffect
  split
  · rename_i hcond
    exfalso
    simp only [Bool.and_eq_true, decide_eq_true_eq, Option.isNone_iff_eq_none] at hcond
    exact hinv hcond.2 hcond.1.1
  · rfl

theorem runEffects_push_noop (r : BlogPostResult) (t : TrackingState)
    (hu : t.useSSE = true) (herr : t.stream.error = none)
    (hinv : t.result = none → ¬ t.stream.data.map (·.status) = some .completed) :
    (runEffects r t).result = t.result ∧
    (runEffects r t).fetchResultCalls = t.fetchResultCalls ∧
    (runEffects r t).useSSE = true ∧
    (runEffects r t).stream = t.stream ∧
    (runEffects r t).workflowId = t.workflowId := by
  unfold runEffects
  rw [fallbackEffect_of_no_error t herr,
      completionEffect_noop_cd r t (by rw [currentData_of_push t hu]; exact hinv)]
  refine ⟨?_, ?_, ?_, ?_, ?_⟩ <;> simp [hu]

theorem runEffects_push_completes (r : BlogPostResult) (t : TrackingState)
    (hu : t.useSSE = true) (herr : t.stream.error = none)
    (hc : t.stream.data.map (·.status) = some .completed)
    (hw : t.workflowId.isSome = true) (hr : t.result = none) :
    (runEffects r t).result = some r ∧
    (runEffects r t).fetchResultCalls = t.fetchResultCalls + 1 ∧
    (runEffects r t).useSSE = true ∧
    (runEffects r t).stream = t.stream ∧
    (runEffects r t).workflowId = t.workflowId := by
  unfold runEffects
  rw [fallbackEffect_of_no_error t herr,
      completionEffect_fires r t (by rw [currentData_of_push t hu]; exact hc) hw hr]
  refine ⟨?_, ?_, ?_, ?_, ?_⟩ <;> simp [hu]

theorem c5_push_step (cfg : TrackerConfig) (r : BlogPostResult) (s : TrackingState)
    (st : WorkflowStatus) (h : perJobPushInv s) :
    perJobPushInv (applyEvent cfg r s (.sseMessage (.ok st))) ∧
    (applyEvent cfg r s (.sseMessage (.ok st))).fetchResultCalls =
      s.fetchResultCalls +
        (if isCompletedStatus st = true ∧ s.result = none then 1 else 0) ∧
    ((applyEvent cfg r s (.sseMessage (.ok st))).result = none ↔
      (s.result = none ∧ isCompletedStatus st = false)) := by
  obtain ⟨h1, h2, h3, h4⟩ := h
  have hred : applyEvent cfg r s (.sseMessage (.ok st))
      = runEffects r { s with stream := onMessage s.stream (.ok st) } := by
    simp only [applyEvent]; rw [if_pos h1]
  have herr1 : ({ s with stream := onMessage s.stream (.ok st) } : TrackingState).stream.error
      = none := by
    show (onMessage s.stream (.ok st)).error = none
    rw [onMessage_ok_error]; exact h2
  have hdata1 : ({ s with stream := onMessage s.stream (.ok st) } : TrackingState).stream.data
      = some st := onMessage_ok_data s.stream st
  rw [hred]
  by_cases hst : st.status = .completed
  · by_cases hr : s.result = none
    · obtain ⟨g1, g2, g3, g4, g5⟩ := runEffects_push_completes r
        { s with stream := onMessage s.stream (.ok st) } h1 herr1
        (by rw [hdata1]; simp [hst]) h3 hr
      refine ⟨⟨g3, by rw [g4]; exact herr1, by rw [g5]; exact h3, ?_⟩, ?_, ?_⟩
      · intro hres; rw [g1] at hres; exact absurd hres (by simp)
      · rw [g2]; simp [isCompletedStatus, hst, hr]
      · rw [g1]; simp [isCompletedStatus, hst, hr]
    · obtain ⟨g1, g2, g3, g4, g5⟩ := runEffects_push_noop r
        { s with stream := onMessage s.stream (.ok st) } h1 herr1
        (by intro hres; exact absurd hres hr)
      refine ⟨⟨g3, by rw [g4]; exact herr1, by rw [g5]; exact h3, ?_⟩, ?_, ?_⟩
      · intro hres; rw [g1] at hres; exact absurd hres hr
      · rw [g2]; simp [isCompletedStatus, hst, hr]
      · rw [g1]; simp [isCompletedStatus, hst, hr]
  · obtain ⟨g1, g2, g3, g4, g5⟩ := runEffects_push_noop r
      { s with stream := onMessage s.stream (.ok st) } h1 herr1
      (by intro _; rw [hdata1]; simp [hst])
    refine ⟨⟨g3, by rw [g4]; exact herr1, by rw [g5]; exact h3, ?_⟩, ?_, ?_⟩
    · intro _; rw [g4, hdata1]; simp [hst]
    · rw [g2]; simp [isCompletedStatus, hst]
    · rw [g1]; simp [isCompletedStatus, hst]

theorem c5_push_fold (cfg : TrackerConfig) (r : BlogPostResult) :
    ∀ (snaps : List WorkflowStatus) (s : TrackingState),
      perJobPushInv s →
      (snaps.foldl (fun t st => applyEvent cfg r t (.sseMessage (.ok st))) s).fetchResultCalls
        = s.fetchResultCalls +
            (if s.result = none ∧ snaps.any isCompletedStatus = true then 1 else 0) := by
  intro snaps
  induction snaps with
  | nil => intro s _; simp
  | cons st rest ih =>
    intro s hs
    simp only [List.foldl_cons, List.any_cons]
    obtain ⟨hinv, hcalls, hres⟩ := c5_push_step cfg r s st hs
    rw [ih _ hinv, hcalls]
    by_cases h1 : isCompletedStatus st = true <;>
      by_cases h2 : s.result = none <;>
      by_cases h3 : rest.any isCompletedStatus = true <;>
      simp [h1, h2, h3, hres, Bool.or_eq_true]

theorem completionEffect_cases (r : BlogPostResult) (t : TrackingState) :
    completionEffect r t = t ∨
    (t.result = none ∧ (completionEffect r t).result = some r ∧
      (completionEffect r t).fetchResultCalls = t.fetchResultCalls + 1) := by
  unfold completionEffect
  split
  · rename_i hcond
    right
    simp only [Bool.and_eq_true, decide_eq_true_eq, Option.isNone_iff_eq_none] at hcond
    exact ⟨hcond.2, rfl, rfl⟩
  · left; rfl

theorem runEffects_fetch_dichotomy (r : BlogPostResult) (t : TrackingState) :
    ((runEffects r t).result = t.result ∧
     (runEffects r t).fetchResultCalls = t.fetchResultCalls) ∨
    (t.result = none ∧ (runEffects r t).result = some r ∧
     (runEffects r t).fetchResultCalls = t.fetchResultCalls + 1) := by
  unfold runEffects
  rcases completionEffect_cases r (fallbackEffect t) with hcc | ⟨hnone, hres, hcalls⟩
  · left
    rw [hcc]
    constructor <;> simp
  · right
    refine ⟨?_, ?_, ?_⟩
    · rw [← fallbackEffect_result t]; exact hnone
    · simp [hres]
    · simp [hcalls]

theorem applyEvent_fetch_dichotomy (cfg : TrackerConfig) (r : BlogPostResult)
    (s : TrackingState) (e : TrackingEvent) (hc : changesJob e = false) :
    ((applyEvent cfg r s e).result = s.result ∧
     (applyEvent cfg r s e).fetchResultCalls = s.fetchResultCalls) ∨
    (s.result = none ∧ (applyEvent cfg r s e).result = some r ∧
     (applyEvent cfg r s e).fetchResultCalls = s.fetchResultCalls + 1) := by
  have hs1 : ∃ s1 : TrackingState,
      applyEvent cfg r s e = runEffects r s1 ∧
      s1.result = s.result ∧ s1.fetchResultCalls = s.fetchResultCalls := by
    cases e with
    | reset => simp [changesJob] at hc
    | startGeneration id => simp [changesJob] at hc
    | propSync id => simp [changesJob] at hc
    | sseOpen =>
      refine ⟨if s.useSSE then { s with stream := onOpen s.stream } else s,
        rfl, ?_, ?_⟩ <;> split <;> rfl
    | sseMessage p =>
      refine ⟨if s.useSSE then { s with stream := onMessage s.stream p } else s,
        rfl, ?_, ?_⟩ <;> split <;> rfl
    | sseError =>
      refine ⟨if s.useSSE then { s with stream := onError s.stream } else s,
        rfl, ?_, ?_⟩ <;> split <;> rfl
    | sseTimerFire =>
      refine ⟨if s.useSSE then { s with stream := reconnectTimerFire s.stream } else s,
        rfl, ?_, ?_⟩ <;> split <;> rfl
    | pollSuccess st =>
      refine ⟨if pollActive s then { s with pollingData := some st, pollingError := none }
        else s, rfl, ?_, ?_⟩ <;> split <;> rfl
    | pollFailure msg =>
      refine ⟨if pollActive s then { s with pollingError := some msg, error := some msg }
        else s, rfl, ?_, ?_⟩ <;> split <;> rfl
    | restoreSSETimer =>
      refine ⟨if s.pendingSSERestore then
          { s with useSSE := true, pendingSSERestore := false,
                   stream := connectToSSE (cleanup s.stream) }
        else s, rfl, ?_, ?_⟩ <;> split <;> rfl
    | retry =>
      refine ⟨retryAction s, rfl, ?_, ?_⟩
      · unfold retryAction
        split
        · rfl
        · dsimp only
          split <;> rfl
      · unfold retryAction
        split
        · rfl
        · dsimp only
          split <;> rfl
  obtain ⟨s1, heq, hres, hcalls⟩ := hs1
  rw [heq]
  rcases runEffects_fetch_dichotomy r s1 with ⟨a, b⟩ | ⟨a, b, c⟩
  · left; exact ⟨by rw [a, hres], by rw [b, hcalls]⟩
  · right; exact ⟨by rw [← hres]; exact a, b, by rw [c, hcalls]⟩

theorem fetch_calls_result_sync (cfg : TrackerConfig) (r : BlogPostResult) :
    ∀ (events : List TrackingEvent) (s : TrackingState),
      (∀ e ∈ events, changesJob e = false) →
      s.fetchResultCalls = (if s.result.isSome = true then 1 else 0) →
      (events.foldl (applyEvent cfg r) s).fetchResultCalls
        = if (events.foldl (applyEvent cfg r) s).result.isSome = true then 1 else 0 := by
  intro events
  induction events with
  | nil => intro s _ h0; simpa using h0
  | cons e rest ih =>
    intro s he h0
    simp only [List.foldl_cons]
    refine ih _ (fun x hx => he x (by simp [hx])) ?_
    rcases applyEvent_fetch_dichotomy cfg r s e (he e (by simp)) with ⟨a, b⟩ | ⟨a, b, c⟩
    · rw [a, b]; exact h0
    · rw [c, b, h0, a]; simp

/-- Claim C5: `getBlogResult` is invoked exactly once per job id across
any sequence of duplicate `completed` snapshots, whichever transport
delivers them.  (1) From any per-job polling tracker with no result and
a zero fetch count, across any serialized non-job-abandoning event
sequence (duplicate poll snapshots, poll errors, stray SSE events,
retries, restore timers), the fetch count ends at one exactly when a
`completed` poll snapshot was delivered, else zero.  (2) From any
push-active tracker on a clean channel, across any sequence of
push-delivered snapshots (redeliveries included), the fetch count ends
at one exactly when a `completed` snapshot was delivered, else zero.
(3) Across ANY mix of non-job-abandoning events — push, poll,
mid-sequence downgrades, parse errors, retries — the count never
exceeds one, and equals one exactly when a result is held; in
particular duplicate succeeded snapshots observed after the result is
held never trigger another fetch. -/
theorem fetchResult_exactly_once (cfg : TrackerConfig) (r : BlogPostResult) :
    (∀ (s : TrackingState) (events : List TrackingEvent),
      perJobPollInv s → s.result = none → s.fetchResultCalls = 0 →
      (∀ e ∈ events, changesJob e = false) →
      (events.foldl (applyEvent cfg r) s).fetchResultCalls
        = if events.any isCompletedPollSnap = true then 1 else 0) ∧
    (∀ (s : TrackingState) (snaps : List WorkflowStatus),
      perJobPushInv s → s.result = none → s.fetchResultCalls = 0 →
      (snaps.foldl (fun t st => applyEvent cfg r t (.sseMessage (.ok st))) s).fetchResultCalls
        = if snaps.any isCompletedStatus = true then 1 else 0) ∧
    (∀ (s : TrackingState) (events : List TrackingEvent),
      s.result = none → s.fetchResultCalls = 0 →
      (∀ e ∈ events, changesJob e = false) →
      (events.foldl (applyEvent cfg r) s).fetchResultCalls ≤ 1 ∧
      ((events.foldl (applyEvent cfg r) s).fetchResultCalls = 1 ↔
        (events.foldl (applyEvent cfg r) s).result.isSome = true)) := by
  refine ⟨?_, ?_, ?_⟩
  · intro s events h0 hres hcalls he
    rw [c5_fold cfg r events s h0 he, hcalls, hres]
    simp
  · intro s snaps h0 hres hcalls
    rw [c5_push_fold cfg r snaps s h0, hcalls, hres]
    simp
  · intro s events hres hcalls he
    have hsync := fetch_calls_result_sync cfg r events s he (by rw [hcalls, hres]; simp)
    constructor
    · rw [hsync]; split <;> omega
    · rw [hsync]
      by_cases hfin : (events.foldl (applyEvent cfg r) s).result.isSome = true <;>
        simp [hfin]

/-- Witness for `fetchResult_exactly_once`: one processing snapshot
followed by two duplicate `completed` snapshots yields exactly one
`getBlogResult` invocation, whether the snapshots arrive by polling or
on the push channel. -/
theorem fetchResult_exactly_once_witness :
    (([.pollSuccess ⟨"abc", .processing, 40, "w", none, 0, 1, none⟩,
       .pollSuccess ⟨"abc", .completed, 100, "d", none, 0, 2, none⟩,
       .pollSuccess ⟨"abc", .completed, 100, "d", none, 0, 3, none⟩] :
        List TrackingEvent).foldl
      (applyEvent ⟨false, defaultPollingInterval⟩ ⟨"post"⟩)
      (pollingTracker "abc")).fetchResultCalls = 1 ∧
    (([⟨"abc", .processing, 40, "w", none, 0, 1, none⟩,
       ⟨"abc", .completed, 100, "d", none, 0, 2, none⟩,
       ⟨"abc", .completed, 100, "d", none, 0, 3, none⟩] :
        List WorkflowStatus).foldl
      (fun t st => applyEvent ⟨true, defaultPollingInterval⟩ ⟨"post"⟩ t
        (.sseMessage (.ok st)))
      (pushTracker "abc")).fetchResultCalls = 1 := by
  constructor
  · have h := (fetchResult_exactly_once ⟨false, defaultPollingInterval⟩ ⟨"post"⟩).1
      (pollingTracker "abc")
      [.pollSuccess ⟨"abc", .processing, 40, "w", none, 0, 1, none⟩,
       .pollSuccess ⟨"abc", .completed, 100, "d", none, 0, 2, none⟩,
       .pollSuccess ⟨"abc", .completed, 100, "d", none, 0, 3, none⟩]
      ⟨rfl, rfl, rfl, by intro _; simp [pollingTracker]⟩ rfl rfl
      (by intro e he; fin_cases he <;> rfl)
    simpa using h
  · have h := (fetchResult_exactly_once ⟨true, defaultPollingInterval⟩ ⟨"post"⟩).2.1
      (pushTracker "abc")
      [⟨"abc", .processing, 40, "w", none, 0, 1, none⟩,
       ⟨"abc", .completed, 100, "d", none, 0, 2, none⟩,
       ⟨"abc", .completed, 100, "d", none, 0, 3, none⟩]
      ⟨rfl, rfl, rfl, by intro _; decide⟩ rfl rfl
    simpa using h

/-- Witness for `poll_loop_stop_conditions` at a concrete polling
tracker. -/
theorem poll_loop_stop_conditions_witness :
    pollActive (applyEvent ⟨false, defaultPollingInterval⟩ ⟨"post"⟩ (pollingTracker "abc")
      (.pollSuccess ⟨"abc", .completed, 100, "d", none, 0, 2, none⟩)) = true ∧
    pollActive (applyEvent ⟨false, defaultPollingInterval⟩ ⟨"post"⟩ (pollingTracker "abc")
      (.pollFailure "Server error. Please try again.")) = true ∧
    pollActive (applyEvent ⟨false, defaultPollingInterval⟩ ⟨"post"⟩ (pollingTracker "abc")
      .reset) = false := by
  exact poll_loop_stop_conditions ⟨false, defaultPollingInterval⟩ ⟨"post"⟩
    (pollingTracker "abc") ⟨"abc", .completed, 100, "d", none, 0, 2, none⟩
    "Server error. Please try again." rfl

theorem makeRequestFrom_all_retryable {α : Type} (f : Nat → Except RequestFailure α)
    (m : Nat)
    (hf : ∀ i, i < m → ∃ fl, f i = .error fl ∧ (handleRequestError fl).retryable = true) :
    ∀ k attempt, m - attempt = k + 1 → attempt < m →
      (makeRequestFrom f m attempt).requestsMade = m - attempt ∧
      (makeRequestFrom f m attempt).backoffDelays =
        (List.range' attempt (m - 1 - attempt)).map (fun i => 2 ^ i * 1000) ∧
      ∃ fl, f (m - 1) = .error fl ∧
        (makeRequestFrom f m attempt).result = .error (handleRequestError fl) := by
  intro k
  induction k with
  | zero =>
    intro attempt hk hm
    have ha : attempt = m - 1 := by omega
    obtain ⟨fl, hfl, _⟩ := hf attempt hm
    unfold makeRequestFrom
    rw [dif_pos hm, hfl]
    simp only [if_pos ha]
    refine ⟨by omega, ?_, fl, ha ▸ hfl, rfl⟩
    have hz : m - 1 - attempt = 0 := by omega
    rw [hz]
    rfl
  | succ k ih =>
    intro attempt hk hm
    have ha : attempt ≠ m - 1 := by omega
    obtain ⟨fl, hfl, hret⟩ := hf attempt hm
    obtain ⟨ih1, ih2, fl2, hfl2, ih3⟩ := ih (attempt + 1) (by omega) (by omega)
    unfold makeRequestFrom
    rw [dif_pos hm, hfl]
    simp only [if_neg ha, if_neg (by simp [hret] : ¬(handleRequestError fl).retryable = false)]
    refine ⟨?_, ?_, fl2, hfl2, ih3⟩
    · show (makeRequestFrom f m (attempt + 1)).requestsMade + 1 = m - attempt
      rw [ih1]; omega
    · show 2 ^ attempt * 1000 :: (makeRequestFrom f m (attempt + 1)).backoffDelays
        = (List.range' attempt (m - 1 - attempt)).map (fun i => 2 ^ i * 1000)
      rw [ih2]
      have hsucc : m - 1 - attempt = (m - 1 - (attempt + 1)) + 1 := by omega
      rw [hsucc, List.range'_succ]
      rfl

/-- Claim C7: for every job-client operation (all three delegate to
`makeRequest`): a non-retryable failure of the first attempt (HTTP
400/422 validation, HTTP 404 not-found) propagates immediately with no
further request attempts; when every attempt fails retryably (network
failure, timeout, HTTP 5xx), exactly `maxRetries` attempts (default 3)
are issued with backoff delays `1000 * 2 ^ attempt` ms between
consecutive attempts, after which the last error propagates. -/
theorem makeRequest_retry_policy {α : Type} (f : Nat → Except RequestFailure α)
    (m : Nat) (h : 0 < m) :
    (∀ fl, f 0 = .error fl → (handleRequestError fl).retryable = false →
      makeRequest f m = ⟨.error (handleRequestError fl), 1, []⟩) ∧
    ((∀ i, i < m → ∃ fl, f i = .error fl ∧ (handleRequestError fl).retryable = true) →
      (makeRequest f m).requestsMade = m ∧
      (makeRequest f m).backoffDelays = (List.range (m - 1)).map (fun i => 2 ^ i * 1000) ∧
      ∃ fl, f (m - 1) = .error fl ∧
        (makeRequest f m).result = .error (handleRequestError fl)) := by
  constructor
  · intro fl hfl hret
    unfold makeRequest makeRequestFrom
    rw [dif_pos h, hfl]
    by_cases h0 : 0 = m - 1
    · simp only [if_pos h0]
    · simp only [if_neg h0, if_pos hret]
  · intro hf
    obtain ⟨h1, h2, fl, hfl, h3⟩ :=
      makeRequestFrom_all_retryable f m hf (m - 1) 0 (by omega) h
    unfold makeRequest
    refine ⟨by rw [h1]; omega, ?_, fl, hfl, h3⟩
    rw [h2, List.range_eq_range']
    have : m - 1 - 0 = m - 1 := by omega
    rw [this]

/-- Witness for `makeRequest_retry_policy`: a 404 propagates after one
attempt; all-timeouts exhaust the default 3 attempts with delays
`[1000, 2000]` ms. -/
theorem makeRequest_retry_policy_witness :
    makeRequest (fun _ => (.error (.httpError 404) : Except RequestFailure Unit))
        defaultMaxRetries
      = ⟨.error (handleRequestError (.httpError 404)), 1, []⟩ ∧
    (makeRequest (fun _ => (.error .abortError : Except RequestFailure Unit))
        defaultMaxRetries).requestsMade = 3 ∧
    (makeRequest (fun _ => (.error .abortError : Except RequestFailure Unit))
        defaultMaxRetries).backoffDelays = [1000, 2000] := by
  obtain ⟨g1, g2, -⟩ := (makeRequest_retry_policy
      (fun _ => (.error .abortError : Except RequestFailure Unit)) defaultMaxRetries
      (by decide)).2 (fun i _ => ⟨.abortError, rfl, rfl⟩)
  refine ⟨(makeRequest_retry_policy _ defaultMaxRetries (by decide)).1 _ rfl (by decide),
    g1, ?_⟩
  simpa using g2

end S2Content
